import Mathlib

/-!
Verification of the MSF referrals CSV import/normalization pipeline.

The definitions below are a shallow embedding of the Python sources:
  - `Convert-CSV-To-SQLite.py` (date parsing, status/type/gender
    classification, attempt reconciliation, import orchestration),
  - `Preprocess-CSV.py` (attempt date backfilling and the audit list),
  - `MSFReferrals.py` (the advisory lock file and the read-only guards).

String values are modelled with Lean `String`; the helpers that Python
provides (`str.strip`, `str.lower`, the `in` operator, slicing) are
re-implemented over `List Char` so that all definitions are executable
and concrete runs can be settled by `decide`.
-/

namespace MSF

/-- Python `str.strip()` whitespace set restricted to ASCII: space, \t,
\n, \r, vertical tab (11) and form feed (12). -/
def isSpaceChar (c : Char) : Bool :=
  c.toNat = 32 ∨ c.toNat = 9 ∨ c.toNat = 10 ∨ c.toNat = 13 ∨ c.toNat = 11 ∨ c.toNat = 12

/-- Strip leading and trailing whitespace from a character list. -/
def stripL (l : List Char) : List Char :=
  (((l.dropWhile isSpaceChar).reverse).dropWhile isSpaceChar).reverse

/-- Model of Python `s.strip()`. -/
def pyStrip (s : String) : String := ⟨stripL s.data⟩

/-- Model of Python `s.lower()` (ASCII case folding). -/
def pyLower (s : String) : String := ⟨s.data.map Char.toLower⟩

/-- Predicate `beginsWith needle hay` holds when `needle` is a prefix of `hay`. -/
def beginsWith : List Char → List Char → Bool
  | [], _ => true
  | _ :: _, [] => false
  | a :: as, b :: bs => a = b && beginsWith as bs

/-- Predicate `containsL hay needle`: `needle` occurs as a contiguous substring of
`hay` (Python `needle in hay`). -/
def containsL : List Char → List Char → Bool
  | [], needle => needle.isEmpty
  | c :: t, needle => beginsWith needle (c :: t) || containsL t needle

/-- Model of Python `needle in hay` on strings. -/
def pyIn (needle hay : String) : Bool := containsL hay.data needle.data

/-- Model of Python slicing `s[:n]`. -/
def strTake (n : Nat) (s : String) : String := ⟨s.data.take n⟩

/-- All characters are ASCII digits and the list is non-empty. -/
def allDigits (l : List Char) : Bool :=
  !l.isEmpty && l.all (fun c => 48 ≤ c.toNat ∧ c.toNat ≤ 57)

/-- Numeric value of a digit list (most significant digit first). -/
def natOfDigits (l : List Char) : Nat :=
  l.foldl (fun a c => 10 * a + (c.toNat - 48)) 0

/-- Split a character list on a separator character; always returns at
least one (possibly empty) chunk, like Python `str.split(sep)`. -/
def splitOnChar (sep : Char) : List Char → List (List Char)
  | [] => [[]]
  | c :: t =>
    let r := splitOnChar sep t
    if c = sep then [] :: r
    else
      match r with
      | [] => [[c]]
      | h :: t2 => (c :: h) :: t2

/-- Gregorian leap year test, as used by Python `datetime`. -/
def isLeap (y : Nat) : Bool := (y % 4 = 0 ∧ y % 100 ≠ 0) ∨ y % 400 = 0

/-- Number of days in month `m` of year `y` (Python `calendar` rules). -/
def daysInMonth (y m : Nat) : Nat :=
  if m = 2 then (if isLeap y then 29 else 28)
  else if m = 4 ∨ m = 6 ∨ m = 9 ∨ m = 11 then 30
  else 31

/-- Days in the months strictly before month `m`, for a year whose
leap flag is `leap`. -/
def daysBeforeMonth (leap : Bool) (m : Nat) : Nat :=
  let f := if leap then 29 else 28
  match m with
  | 1 => 0
  | 2 => 31
  | 3 => 31 + f
  | 4 => 62 + f
  | 5 => 92 + f
  | 6 => 123 + f
  | 7 => 153 + f
  | 8 => 184 + f
  | 9 => 215 + f
  | 10 => 245 + f
  | 11 => 276 + f
  | 12 => 306 + f
  | _ => 337 + f

/-- Days in proleptic Gregorian years strictly before year `y`
(so `daysBeforeYear 1 = 0`), matching Python `date.toordinal`. -/
def daysBeforeYear (y : Nat) : Nat :=
  365 * (y - 1) + (y - 1) / 4 + (y - 1) / 400 - (y - 1) / 100

/-- Python `date(y, m, d).toordinal()`: day number counted from
0001-01-01 = day 1. -/
def toOrdinal (y m d : Nat) : Nat :=
  daysBeforeYear y + daysBeforeMonth (isLeap y) m + d

/-- Epoch seconds of midnight on a civil date, computed as an explicit
signed delta from 1970-01-01 (ordinal 719163), exactly like the
`date_obj - datetime(1970, 1, 1)` fallback in `parse_date_to_timestamp`.
Dates before 1970 yield negative values. -/
def epochSecondsOf (y m d : Nat) : Int :=
  ((toOrdinal y m d : Int) - 719163) * 86400

/-- A calendar date accepted by Python `datetime`: year 1..9999, month
1..12, day within the month. -/
def validDate (y m d : Nat) : Prop :=
  1 ≤ y ∧ y ≤ 9999 ∧ 1 ≤ m ∧ m ≤ 12 ∧ 1 ≤ d ∧ d ≤ daysInMonth y m

instance (y m d : Nat) : Decidable (validDate y m d) := by
  unfold validDate; infer_instance

/-- Month number for a lower-cased three-letter English abbreviation,
the `%b` directive of `strptime` (matched case-insensitively). -/
def monthNum (l : List Char) : Option Nat :=
  if l = ['j', 'a', 'n'] then some 1
  else if l = ['f', 'e', 'b'] then some 2
  else if l = ['m', 'a', 'r'] then some 3
  else if l = ['a', 'p', 'r'] then some 4
  else if l = ['m', 'a', 'y'] then some 5
  else if l = ['j', 'u', 'n'] then some 6
  else if l = ['j', 'u', 'l'] then some 7
  else if l = ['a', 'u', 'g'] then some 8
  else if l = ['s', 'e', 'p'] then some 9
  else if l = ['o', 'c', 't'] then some 10
  else if l = ['n', 'o', 'v'] then some 11
  else if l = ['d', 'e', 'c'] then some 12
  else none

/-- The `%d` (and `%m`-like) token shape of CPython `strptime`: one or
two digits. A lone `0` or `00` is rejected by the regular expression;
value bounds are checked by the caller. -/
def twoDigitTok (l : List Char) : Bool :=
  allDigits l && (l.length = 1 ∨ l.length = 2)

/-- CPython `strptime(s, "%d-%b-%y")`, returning the resolved
`(year, month, day)`. The two-digit year is resolved by the POSIX
pivot hard-coded in CPython `_strptime`: values 0-68 map to 2000-2068
and values 69-99 map to 1969-1999 (NOT the 0-49/50-99 pivot asserted
by the comment in `parse_date_to_timestamp`). The day is validated
against the month by the `datetime` constructor. -/
def parseDMYL (l : List Char) : Option (Nat × Nat × Nat) :=
  match splitOnChar '-' l with
  | [ds, ms, ys] =>
    if twoDigitTok ds ∧ allDigits ys ∧ ys.length = 2 then
      match monthNum (ms.map Char.toLower) with
      | some m =>
        let dv := natOfDigits ds
        let yv := natOfDigits ys
        let y := if yv ≤ 68 then 2000 + yv else 1900 + yv
        if 1 ≤ dv ∧ dv ≤ 31 ∧ dv ≤ daysInMonth y m then some (y, m, dv) else none
      | none => none
    else none
  | _ => none

/-- Wrapper for `strptime "%d-%b-%y"` on a `String`. -/
def parseDMY (s : String) : Option (Nat × Nat × Nat) := parseDMYL s.data

/-- CPython `strptime(s, "%Y-%m-%d")`: a four-digit year (`datetime`
requires year ≥ 1), a one/two-digit month 1..12 and a one/two-digit
day validated against the month. -/
def parseISOL (l : List Char) : Option (Nat × Nat × Nat) :=
  match splitOnChar '-' l with
  | [ys, ms, ds] =>
    if allDigits ys ∧ ys.length = 4 ∧ twoDigitTok ms ∧ twoDigitTok ds then
      let yv := natOfDigits ys
      let mv := natOfDigits ms
      let dv := natOfDigits ds
      if 1 ≤ yv ∧ 1 ≤ mv ∧ mv ≤ 12 ∧ 1 ≤ dv ∧ dv ≤ daysInMonth yv mv then
        some (yv, mv, dv)
      else none
    else none
  | _ => none

/-- Wrapper for `strptime "%Y-%m-%d"` on a `String`. -/
def parseISO (s : String) : Option (Nat × Nat × Nat) := parseISOL s.data

/-- Model of `parse_date_to_timestamp` from `Convert-CSV-To-SQLite.py` (lines
14-47): empty or blank input yields `None`; otherwise try
`"%d-%b-%y"`, fall back to `"%Y-%m-%d"`, and on any failure return
`None`. A parsed date is converted to signed epoch seconds (the
pre-1970-safe delta-from-epoch computation of lines 32-35). -/
def parse_date_to_timestamp (s : String) : Option Int :=
  if pyStrip s = "" then none
  else
    match parseDMY (pyStrip s) with
    | some (y, m, d) => some (epochSecondsOf y m d)
    | none =>
      match parseISO (pyStrip s) with
      | some (y, m, d) => some (epochSecondsOf y m d)
      | none => none

/-- A CSV source row, as produced by `csv.DictReader`: an association
list from column names to raw cell text. -/
abbrev Row := List (String × String)

/-- Python `row.get(key, '')`. -/
def getRow (r : Row) (k : String) : String :=
  match r.find? (fun p => p.1 = k) with
  | some p => p.2
  | none => ""

/-- Python `row[key] = v` on a dict: replace the binding if present,
otherwise append it. -/
def setRow (r : Row) (k v : String) : Row :=
  if (r.find? (fun p => p.1 = k)).isSome then
    r.map (fun p => if p.1 = k then (k, v) else p)
  else r ++ [(k, v)]

/-- Status classification from `Convert-CSV-To-SQLite.py` lines
270-286: the legacy `Referral Complete` value together with the
presence of a first-attempt date and of a complete-information date
determine the new status. -/
def referralStatusOf (row : Row) : String :=
  let oldS := pyStrip (getRow row "Referral Complete")
  let hasFirstAttempt := pyStrip (getRow row "1st Attempt to reach Patient/Referring MD") ≠ ""
  let hasCompleteInfo := pyStrip (getRow row "Date Complete Information received") ≠ ""
  if oldS = "Complete" then "Completed"
  else if oldS = "Cancelled" ∨ oldS = "Deferred" then "Deferred"
  else if oldS = "Pending" then
    if hasCompleteInfo then "Info Received"
    else if hasFirstAttempt then "Pending"
    else "New"
  else "New"

/-- Type classification from `Convert-CSV-To-SQLite.py` lines 288-297:
case-insensitive substring matching on the `New or Returning` field. -/
def referralTypeOf (row : Row) : String :=
  let s := pyStrip (getRow row "New or Returning")
  if s ≠ "" then
    let l := pyLower s
    if pyIn "prev pt" l ∨ pyIn "previous" l ∨ pyIn "returning" l ∨ pyIn "return" l then
      "Previous"
    else if pyIn "partner" l then "Partner"
    else if pyIn "new" l then "New"
    else "New"
  else "New"

/-- Gender-by-service proxy from `Convert-CSV-To-SQLite.py` lines
299-305. -/
def genderOf (row : Row) : String :=
  let s := pyStrip (getRow row "Service Requested")
  if s = "SB" then "Male"
  else if s = "EEF" ∨ s = "ONC" ∨ s = "Gyne" ∨ s = "RPL" then "Female"
  else ""

/-- Model of `get_contact_mode` from `Convert-CSV-To-SQLite.py` lines 311-333.
The `email_field` hint is only passed for the first attempt slot.
Python's guard `if not type_field or not type_field.strip()` is the
single test `pyStrip tf = ""` (an empty string strips to itself);
the hint guard `if email_field and 'email' in email_field.lower()`
tests the raw (unstripped) hint. -/
def get_contact_mode (tf : String) (ef : Option String) : String :=
  if pyStrip tf = "" then
    match ef with
    | some e => if e ≠ "" ∧ pyIn "email" (pyLower e) then "E-Mail" else "Phone"
    | none => "Phone"
  else
    let m := pyLower (pyStrip tf)
    if pyIn "email" m ∨ pyIn "e-mail" m then "E-Mail"
    else if pyIn "phone" m ∨ pyIn "call" m then "Phone"
    else if pyIn "fax" m then "Fax"
    else if pyIn "person" m ∨ pyIn "visit" m ∨ pyIn "in person" m then "In-Person"
    else if pyIn "mail" m ∨ pyIn "post" m then "Mail"
    else if pyIn "text" m ∨ pyIn "sms" m then "Text/SMS"
    else pyStrip tf

/-- One reconciled contact attempt (a row of `attempt_history`). -/
structure Attempt where
  date : Option Int
  time : String
  mode : String
  comment : String
deriving DecidableEq

/-- First historical slot (`Convert-CSV-To-SQLite.py` lines 335-345):
emitted when the date or the `Comments` field is non-blank; the mode
is derived from the `Email` column, which is passed both as the
contact-type text and as the e-mail hint. -/
def slotAttempt1 (row : Row) : Option Attempt :=
  let d := pyStrip (getRow row "1st Attempt to reach Patient/Referring MD")
  let c := pyStrip (getRow row "Comments")
  if d ≠ "" ∨ c ≠ "" then
    some ⟨if d ≠ "" then parse_date_to_timestamp d else none, "",
      get_contact_mode (getRow row "Email") (some (getRow row "Email")), c⟩
  else none

/-- Second historical slot (lines 347-357): mode from `Type of
Contact`, comment from `Comments2`. -/
def slotAttempt2 (row : Row) : Option Attempt :=
  let d := pyStrip (getRow row "2nd Attempt to reach Patient/Referring MD")
  let c := pyStrip (getRow row "Comments2")
  if d ≠ "" ∨ c ≠ "" then
    some ⟨if d ≠ "" then parse_date_to_timestamp d else none, "",
      get_contact_mode (getRow row "Type of Contact") none, c⟩
  else none

/-- Third historical slot (lines 359-369): mode from `Type of
Contact3`, comment from `Comments4`. -/
def slotAttempt3 (row : Row) : Option Attempt :=
  let d := pyStrip (getRow row "3rd Attempt to reach Patient/Referring MD")
  let c := pyStrip (getRow row "Comments4")
  if d ≠ "" ∨ c ≠ "" then
    some ⟨if d ≠ "" then parse_date_to_timestamp d else none, "",
      get_contact_mode (getRow row "Type of Contact3") none, c⟩
  else none

/-- The reconciled attempt list of a source row, in slot order. -/
def rowAttempts (row : Row) : List Attempt :=
  (slotAttempt1 row).toList ++ (slotAttempt2 row).toList ++ (slotAttempt3 row).toList

/-- The fields of an imported referral that the claims speak about
(status, type, gender, the denormalized last-attempt summary, the
attempt tallies) together with its child attempt rows. -/
structure Referral where
  referralStatus : String
  referralType : String
  patientGenderAtBirth : String
  patientLastName : String
  phoneAttempts : Nat
  emailAttempts : Nat
  lastAttemptDate : Option Int
  lastAttemptMode : Option String
  lastAttemptComment : Option String
  attempts : List Attempt
deriving DecidableEq

/-- Per-row conversion from `Convert-CSV-To-SQLite.py` lines 262-469:
a row without a non-blank `LAST NAME` is skipped (`none`); otherwise
the referral and its attempt children are built as one unit.
`phoneAttempts` / `emailAttempts` are the tallies of lines 374-376 and
the last-attempt summary is `attempts[-1]` (lines 371-372, 440-443). -/
def convertRow (row : Row) : Option Referral :=
  if pyStrip (getRow row "LAST NAME") = "" then none
  else
    let attempts := rowAttempts row
    let last := attempts.getLast?
    some {
      referralStatus := referralStatusOf row
      referralType := referralTypeOf row
      patientGenderAtBirth := genderOf row
      patientLastName := pyStrip (getRow row "LAST NAME")
      phoneAttempts := (attempts.filter (fun a => a.mode = "Phone" ∨ a.mode = "Phone call")).length
      emailAttempts := (attempts.filter (fun a => a.mode = "E-Mail" ∨ a.mode = "Email")).length
      lastAttemptDate := match last with | some a => a.date | none => none
      lastAttemptMode := last.map Attempt.mode
      lastAttemptComment := last.map Attempt.comment
      attempts := attempts }

/-- Everything the import orchestrator reports: the referrals inserted
(in stream order), the row numbers announced as skipped ("Skipping
empty row i", line 267), and the end-of-stream totals of lines 476-477
(`row_count` rows read, `inserted_count` referrals imported). -/
structure ConvertResult where
  referrals : List Referral
  skippedNotices : List Nat
  rowsRead : Nat
  importedCount : Nat
deriving DecidableEq

/-- Stream loop of `convert_csv_to_sqlite` (lines 262-473): `n` is the
running `row_count` of the row about to be processed. -/
def convertAllAux (n : Nat) : List Row → List Referral × List Nat
  | [] => ([], [])
  | r :: rest =>
    match convertRow r with
    | some ref =>
      let p := convertAllAux (n + 1) rest
      (ref :: p.1, p.2)
    | none =>
      let p := convertAllAux (n + 1) rest
      (p.1, n :: p.2)

/-- The import orchestrator over a decoded row stream. -/
def convertAll (rows : List Row) : ConvertResult :=
  let p := convertAllAux 1 rows
  ⟨p.1, p.2, rows.length, p.1.length⟩

/-- The end-of-stream status breakdown (lines 485-488): the count of
imported referrals carrying a given status. -/
def statusBreakdownCount (rows : List Row) (s : String) : Nat :=
  ((convertAll rows).referrals.filter (fun x => x.referralStatus = s)).length

/-- The end-of-stream type breakdown (lines 490-493). -/
def typeBreakdownCount (rows : List Row) (t : String) : Nat :=
  ((convertAll rows).referrals.filter (fun x => x.referralType = t)).length

/-- Model of `parse_date` from `Preprocess-CSV.py` lines 22-35, used only as a
validity test: blank input is invalid, otherwise the value must parse
as `"%d-%b-%y"` (both `try` branches of the Python function use this
same format, so there is no second format). -/
def pre_parse_ok (s : String) : Bool := (parseDMY (pyStrip s)).isSome

/-- One entry of the pre-processor audit list (`flag_info`,
`Preprocess-CSV.py` lines 159-166): source row number, patient name,
the attempt date field backfilled, the inferred value, the provenance
field, and the first 50 characters of the triggering comment. -/
structure FlagInfo where
  rowNum : Nat
  patient : String
  attempt : String
  inferredDate : String
  dateSource : String
  comment : String
deriving DecidableEq

/-- The three attempt slots of `Preprocess-CSV.py` lines 89-105, each
as (date field, mode field, comment field). -/
def slotFields : List (String × String × String) :=
  [("1st Attempt to reach Patient/Referring MD", "Email", "Comments"),
   ("2nd Attempt to reach Patient/Referring MD", "Type of Contact", "Comments2"),
   ("3rd Attempt to reach Patient/Referring MD", "Type of Contact3", "Comments4")]

/-- Date inference for slot `i` (`Preprocess-CSV.py` lines 126-151):
first the `Date Complete Information received` value, then the prior
attempt slots scanned in slot order from the first (the Python loop
over `attempts` breaks at the current slot and takes the first prior
date that validates), then `Date Referral Received`; each candidate is
stripped and must pass `parse_date`. Returns the value used and its
provenance field. -/
def inferDate (row : Row) (i : Nat) : Option (String × String) :=
  let complete := pyStrip (getRow row "Date Complete Information received")
  if complete ≠ "" ∧ pre_parse_ok complete then
    some (complete, "Date Complete Information received")
  else
    match ((slotFields.take i).filterMap (fun sf =>
        let d := pyStrip (getRow row sf.1)
        if d ≠ "" ∧ pre_parse_ok d then some (d, sf.1) else none)).head? with
    | some p => some p
    | none =>
      let received := pyStrip (getRow row "Date Referral Received")
      if received ≠ "" ∧ pre_parse_ok received then
        some (received, "Date Referral Received")
      else none

/-- Running state of the per-row attempt pass: the (mutated) row, the
audit list, and the `set_other_mode` / `inferred_dates` counters. -/
structure PreState where
  row : Row
  flags : List FlagInfo
  otherCount : Nat
  inferredCount : Nat
deriving DecidableEq

/-- One iteration of the attempts loop of `Preprocess-CSV.py` lines
107-168 for source row number `idx` and slot index `i`: when a comment
is present and the date or the mode is missing, the mode is defaulted
to `Other` (counter only) and a missing date is backfilled via
`inferDate`; only a successful backfill appends an audit entry. -/
def processSlot (idx : Nat) (st : PreState) (i : Nat) : PreState :=
  match slotFields.get? i with
  | none => st
  | some (df, mf, cf) =>
    let hasComment := pyStrip (getRow st.row cf) ≠ ""
    let hasDate := pyStrip (getRow st.row df) ≠ ""
    let hasMode := pyStrip (getRow st.row mf) ≠ ""
    if hasComment ∧ (¬ hasDate ∨ ¬ hasMode) then
      let row1 := if hasMode then st.row else setRow st.row mf "Other"
      let oc1 := if hasMode then st.otherCount else st.otherCount + 1
      if hasDate then { st with row := row1, otherCount := oc1 }
      else
        match inferDate row1 i with
        | none => { st with row := row1, otherCount := oc1 }
        | some (d, src) =>
          let row2 := setRow row1 df d
          let patient := pyStrip (getRow row2 "FIRST NAME" ++ " " ++ getRow row2 "LAST NAME")
          { row := row2,
            flags := st.flags ++ [⟨idx, patient, df, d, src, strTake 50 (getRow row2 cf)⟩],
            otherCount := oc1,
            inferredCount := st.inferredCount + 1 }
    else st

/-- The whole attempts pass of one source row (slots processed in
order, the row threaded through so later slots see earlier
backfills). The earlier standardization / e-mail extraction steps of
`preprocess_csv` (lines 64-86) rewrite only non-empty mode values and
the unrelated `E-Mail` column, so they change no emptiness test or
date field read in this loop. -/
def processAttempts (idx : Nat) (row : Row) : PreState :=
  processSlot idx (processSlot idx (processSlot idx ⟨row, [], 0, 0⟩ 0) 1) 2

/-- The audit list of a whole file (`changes['flagged_missing_dates']`):
rows are numbered from 2 (line 59) and rows with a blank `LAST NAME`
are skipped (lines 60-62). -/
def preprocessFlags (rows : List Row) : List FlagInfo :=
  (rows.enumFrom 2).foldr
    (fun p acc =>
      if pyStrip (getRow p.2 "LAST NAME") = "" then acc
      else (processAttempts p.1 p.2).flags ++ acc) []

/-- The contents of the advisory lock marker file
(`MSFReferrals.py`): the owning user and the acquisition time,
modelled in epoch seconds. -/
structure LockData where
  user : String
  timeStamp : Int
deriving DecidableEq

/-- Constant `LOCK_STALE_HOURS = 4`, expressed in seconds: the Python test
`hours_old > LOCK_STALE_HOURS` on `total_seconds() / 3600` is exactly
`ageSeconds > 14400`. -/
def lockStaleSeconds : Int := 14400

/-- Result of `check_lock_file` (`MSFReferrals.py` lines 165-186):
an absent (or unreadable) file reports unlocked; a present file
reports locked with `stale` iff the file is strictly older than the
threshold. -/
structure LockStatus where
  locked : Bool
  user : String
  timeStamp : Int
  stale : Bool
deriving DecidableEq

/-- Model of `check_lock_file` over the marker-file state at time `now`. -/
def check_lock_file (f : Option LockData) (now : Int) : LockStatus :=
  match f with
  | none => ⟨false, "", 0, false⟩
  | some d => ⟨true, d.user, d.timeStamp, now - d.timeStamp > lockStaleSeconds⟩

/-- Outcome reported by `login` once credentials have been accepted. -/
inductive LoginOutcome where
  | lockedBy (user : String)
  | success (user : String)
deriving DecidableEq

/-- Session state after `login`: marker-file state, read-only flag. -/
structure LoginState where
  file : Option LockData
  isReadOnlySession : Bool
deriving DecidableEq

/-- The lock-handling tail of `login` (`MSFReferrals.py` lines
121-141), after credential validation: a present, non-stale lock
reports `locked` and the session proceeds read-only; otherwise a
stale file is deleted, a fresh marker is written for this user and
the session gains write access. -/
def login_after_auth (f : Option LockData) (now : Int) (username : String) :
    LoginOutcome × LoginState :=
  let st := check_lock_file f now
  if st.locked ∧ ¬ st.stale then
    (.lockedBy st.user, ⟨f, true⟩)
  else
    (.success username, ⟨some ⟨username, now⟩, false⟩)

/-- One attempt as submitted by the dashboard to `add_referral` /
`update_referral`: the date still a raw `"%Y-%m-%d"` string. -/
structure AttemptInput where
  date : String
  time : String
  mode : String
  comment : String
deriving DecidableEq

/-- The referral date fields that `add_referral` / `update_referral`
convert from `"%Y-%m-%d"` strings to timestamps. -/
def dateFieldNames : List String :=
  ["referralDate", "receivedDate", "patientDOB", "partnerDOB",
   "lastAttemptDate", "faxedBackDate", "completeInfoReceivedDate",
   "referralCompleteDate", "notesDate"]

/-- Model of `strptime(v, "%Y-%m-%d").timestamp()` of the CRUD endpoints,
as epoch seconds; `none` on parse failure (the Python code then
stores `NULL`). -/
def isoTimestamp (s : String) : Option Int :=
  match parseISO s with
  | some (y, m, d) => some (epochSecondsOf y m d)
  | none => none

/-- A stored `referrals` row as the CRUD endpoints shape it: the
submitted payload, the converted date fields (an empty submitted
value is left unconverted by the Python loop and stored as-is; it is
modelled as `none` here), and the derived summary fields. -/
structure StoredReferral where
  refId : Nat
  fields : Row
  dateVals : List (String × Option Int)
  phoneAttempts : Nat
  emailAttempts : Nat
  lastAttemptMode : Option String
deriving DecidableEq

/-- The two tables the claims are about. `attempts` pairs each
`attempt_history` row with its `referralID`. -/
structure DBState where
  referrals : List StoredReferral
  attempts : List (Nat × Attempt)
  nextId : Nat
deriving DecidableEq

/-- Result status of a CRUD endpoint. -/
inductive ApiResult where
  | ok
  | err (msg : String)
deriving DecidableEq

/-- The date-field conversion loop shared by `add_referral` and
`update_referral` (`MSFReferrals.py` lines 744-753 and 826-835). -/
def convertDateFields (data : Row) : List (String × Option Int) :=
  dateFieldNames.map (fun k =>
    let v := getRow data k
    (k, if v ≠ "" then isoTimestamp v else none))

/-- Attempt rows inserted for a referral (`MSFReferrals.py` lines
763-781): each date parsed as `"%Y-%m-%d"`, `None` on failure. -/
def buildAttemptRows (rid : Nat) (hist : List AttemptInput) : List (Nat × Attempt) :=
  hist.map (fun a =>
    (rid, ⟨if a.date ≠ "" then isoTimestamp a.date else none, a.time, a.mode, a.comment⟩))

/-- The attempt-mode tallies of the CRUD endpoints (lines 731-732). -/
def histPhoneCount (hist : List AttemptInput) : Nat :=
  (hist.filter (fun a => a.mode = "Phone" ∨ a.mode = "Phone call")).length

/-- E-mail tally of the CRUD endpoints (lines 731-732). -/
def histEmailCount (hist : List AttemptInput) : Nat :=
  (hist.filter (fun a => a.mode = "E-Mail" ∨ a.mode = "Email")).length

/-- Model of `add_referral` (`MSFReferrals.py` lines 716-795): the read-only
guard is the first statement and returns an error before any database
access; otherwise the referral row and its attempt children are
inserted. -/
def add_referral (readOnly : Bool) (db : DBState) (data : Row)
    (hist : List AttemptInput) : ApiResult × DBState :=
  if readOnly then (.err "Cannot add referrals in read-only mode", db)
  else
    let rid := db.nextId
    let stored : StoredReferral :=
      ⟨rid, data, convertDateFields data, histPhoneCount hist, histEmailCount hist,
        (hist.getLast?).map AttemptInput.mode⟩
    (.ok, ⟨db.referrals ++ [stored], db.attempts ++ buildAttemptRows rid hist, rid + 1⟩)

/-- Model of `update_referral` (`MSFReferrals.py` lines 797-876): after the
read-only guard, the matching referral row is rewritten and its whole
attempt list replaced. -/
def update_referral (readOnly : Bool) (db : DBState) (rid : Nat) (data : Row)
    (hist : List AttemptInput) : ApiResult × DBState :=
  if readOnly then (.err "Cannot update referrals in read-only mode", db)
  else
    let upd := fun (r : StoredReferral) =>
      if r.refId = rid then
        { r with
          fields := data
          dateVals := convertDateFields data
          phoneAttempts := histPhoneCount hist
          emailAttempts := histEmailCount hist
          lastAttemptMode := (hist.getLast?).map AttemptInput.mode }
      else r
    (.ok, ⟨db.referrals.map upd,
      (db.attempts.filter (fun p => p.1 ≠ rid)) ++ buildAttemptRows rid hist,
      db.nextId⟩)

/-- Model of `delete_referral` (`MSFReferrals.py` lines 878-901): after the
read-only guard, the referral row is deleted and its attempt children
cascade. -/
def delete_referral (readOnly : Bool) (db : DBState) (rid : Nat) : ApiResult × DBState :=
  if readOnly then (.err "Cannot delete referrals in read-only mode", db)
  else
    (.ok, ⟨db.referrals.filter (fun r => r.refId ≠ rid),
      db.attempts.filter (fun p => p.1 ≠ rid), db.nextId⟩)

/-- Spec-side status mapping, written from the specification's words:
`Complete` to Completed; `Cancelled` or `Deferred` to Deferred;
`Pending` to Info Received / Pending / New depending on which dates
are present; anything else to New. To be compared with
`referralStatusOf`. -/
def statusSpec (oldS : String) (hasCompleteInfo hasFirstAttempt : Prop)
    [Decidable hasCompleteInfo] [Decidable hasFirstAttempt] : String :=
  if oldS = "Complete" then "Completed"
  else if oldS = "Cancelled" ∨ oldS = "Deferred" then "Deferred"
  else if oldS = "Pending" then
    if hasCompleteInfo then "Info Received"
    else if hasFirstAttempt then "Pending"
    else "New"
  else "New"

/-- Spec-side contact-mode mapping, written from the specification's
words: case-insensitive keyword match on the (trimmed) contact-type
text, with unrecognized non-empty text passed through and empty text
defaulting to Phone. To be compared with `get_contact_mode`. -/
def modeSpec (t : String) : String :=
  let txt := pyStrip t
  if txt = "" then "Phone"
  else
    let m := pyLower txt
    if pyIn "email" m ∨ pyIn "e-mail" m then "E-Mail"
    else if pyIn "phone" m ∨ pyIn "call" m then "Phone"
    else if pyIn "fax" m then "Fax"
    else if pyIn "person" m ∨ pyIn "visit" m then "In-Person"
    else if pyIn "mail" m ∨ pyIn "post" m then "Mail"
    else if pyIn "text" m ∨ pyIn "sms" m then "Text/SMS"
    else txt

/-- Spec-side mode mapping for the first slot: E-Mail is additionally
inferred when the word `email` appears in the side field (which for
this slot is also the contact-type text). -/
def modeSpecFirst (e : String) : String :=
  if pyIn "email" (pyLower (pyStrip e)) then "E-Mail" else modeSpec e

example : parseDMY "13-Oct-83" = some (1983, 10, 13) := by decide
example : parseDMY "1-Jan-25" = some (2025, 1, 1) := by decide
example : parseDMY "29-Feb-21" = none := by decide
example : parseDMY "29-Feb-20" = some (2020, 2, 29) := by decide
example : parseDMY "13-OCT-55" = some (2055, 10, 13) := by decide
example : parseISO "2024-09-17" = some (2024, 9, 17) := by decide
example : parse_date_to_timestamp "1970-01-01" = some 0 := by decide
example : parse_date_to_timestamp "  " = none := by decide
example : parse_date_to_timestamp "garbage" = none := by decide

/-- C1: For every source row, the status classifier maps the legacy
`Referral Complete` field to the new status as the specification
describes: `Complete` to Completed; `Cancelled` or `Deferred` to
Deferred; `Pending` to Info Received when a complete-information date
is present, else to Pending when a first-attempt date is present,
else to New; any other value to New. -/
theorem c1_status_classifier (row : Row) :
    referralStatusOf row =
      statusSpec (pyStrip (getRow row "Referral Complete"))
        (pyStrip (getRow row "Date Complete Information received") ≠ "")
        (pyStrip (getRow row "1st Attempt to reach Patient/Referring MD") ≠ "") := rfl

/-- C2: evaluation of the embedded `strptime "%d-%b-%y"` at the
failing input `13-Oct-55`: CPython resolves the two-digit year by the
POSIX pivot (0-68 to 2000s, 69-99 to 1900s), so the resolved year is
2055, not the 1955 promised by the claim and by the code's own
comment (`00-49 = 2000s, 50-99 = 1900s`). -/
theorem c2_year_pivot_eval : parseDMY "13-Oct-55" = some (2055, 10, 13) := by decide

/-- C10: while the session is read-only, `add_referral`,
`update_referral` and `delete_referral` each return an error status
and leave the `referrals` and `attempt_history` tables unchanged. -/
theorem c10_readonly_guard (db : DBState) (data : Row) (hist : List AttemptInput) (rid : Nat) :
    ((add_referral true db data hist).1 = .err "Cannot add referrals in read-only mode"
      ∧ (add_referral true db data hist).2.referrals = db.referrals
      ∧ (add_referral true db data hist).2.attempts = db.attempts)
  ∧ ((update_referral true db rid data hist).1 = .err "Cannot update referrals in read-only mode"
      ∧ (update_referral true db rid data hist).2.referrals = db.referrals
      ∧ (update_referral true db rid data hist).2.attempts = db.attempts)
  ∧ ((delete_referral true db rid).1 = .err "Cannot delete referrals in read-only mode"
      ∧ (delete_referral true db rid).2.referrals = db.referrals
      ∧ (delete_referral true db rid).2.attempts = db.attempts) :=
  ⟨⟨rfl, rfl, rfl⟩, ⟨rfl, rfl, rfl⟩, ⟨rfl, rfl, rfl⟩⟩

/-- C9 counterexample: at age exactly 4 hours (14400 seconds) the
code still treats the lock as held (the login is refused and the
session is read-only), although the age is not less than 4 hours —
refuting "held exactly when the marker is present and its age is
less than 4 hours". -/
theorem c9_lock_boundary_counterexample :
    (login_after_auth (some ⟨"jennia", 0⟩) 14400 "admin").2.isReadOnlySession = true
  ∧ (login_after_auth (some ⟨"jennia", 0⟩) 14400 "admin").1 = .lockedBy "jennia"
  ∧ ¬ ((14400 : Int) - 0 < lockStaleSeconds) := by decide

/-- C9 (amended): the advisory lock is considered held exactly when
the marker file is present and its age is AT MOST 4 hours (staleness
requires age strictly greater than the threshold); when the file is
absent or stale, a login acquires the lock (overwriting any stale
marker with a fresh one for this user) and gains write access;
otherwise the login is reported as locked by the recorded user and
proceeds read-only with the marker untouched. -/
theorem c9_lock_lease_amended (f : Option LockData) (now : Int) (u : String) :
    ((login_after_auth f now u).2.isReadOnlySession = true ↔
        ∃ d, f = some d ∧ now - d.timeStamp ≤ lockStaleSeconds)
  ∧ (∀ d, f = some d → now - d.timeStamp ≤ lockStaleSeconds →
        (login_after_auth f now u).1 = .lockedBy d.user
        ∧ (login_after_auth f now u).2.file = f)
  ∧ ((f = none ∨ ∃ d, f = some d ∧ lockStaleSeconds < now - d.timeStamp) →
        (login_after_auth f now u).1 = .success u
        ∧ (login_after_auth f now u).2.file = some ⟨u, now⟩
        ∧ (login_after_auth f now u).2.isReadOnlySession = false) := by
  refine ⟨?_, ?_, ?_⟩
  · cases f with
    | none => simp [login_after_auth, check_lock_file]
    | some d =>
      by_cases h : now - d.timeStamp ≤ lockStaleSeconds
      · simp [login_after_auth, check_lock_file, h, not_lt.mpr h]
        omega
      · simp [login_after_auth, check_lock_file, lt_of_not_le h, h]
        omega
  · intro d hf h
    subst hf
    simp [login_after_auth, check_lock_file, not_lt.mpr h]
  · intro h
    rcases h with h | ⟨d, hf, h⟩
    · subst h; simp [login_after_auth, check_lock_file]
    · subst hf
      simp [login_after_auth, check_lock_file, not_le.mpr h]

/-- C9 witness: a fresh lock (100 seconds old) blocks a second login,
which proceeds read-only with the marker untouched. -/
theorem c9_lock_lease_witness :
    (login_after_auth (some ⟨"jennia", 0⟩) 100 "admin").1 = .lockedBy "jennia"
  ∧ (login_after_auth (some ⟨"jennia", 0⟩) 100 "admin").2.file = some ⟨"jennia", 0⟩ :=
  (c9_lock_lease_amended (some ⟨"jennia", 0⟩) 100 "admin").2.1 ⟨"jennia", 0⟩ rfl (by decide)

/-- A list whose strip is empty consists of whitespace only. -/
lemma allSpace_of_stripL_nil {l : List Char} (h : stripL l = []) :
    ∀ c ∈ l, isSpaceChar c = true := by
  unfold stripL at h
  rw [List.reverse_eq_nil_iff] at h
  have h2 : ∀ c ∈ (l.dropWhile isSpaceChar).reverse, isSpaceChar c = true :=
    List.dropWhile_eq_nil_iff.mp h
  intro c hc
  rcases List.mem_append.mp
      ((List.takeWhile_append_dropWhile (p := isSpaceChar) (l := l)) ▸ hc) with h3 | h3
  · exact List.mem_takeWhile_imp h3
  · exact h2 c (List.mem_reverse.mpr h3)

/-- ASCII lower-casing fixes whitespace characters. -/
lemma toLower_of_space {c : Char} (h : isSpaceChar c = true) : Char.toLower c = c := by
  have hn : c.toNat = 32 ∨ c.toNat = 9 ∨ c.toNat = 10 ∨ c.toNat = 13
      ∨ c.toNat = 11 ∨ c.toNat = 12 := by simpa [isSpaceChar] using h
  unfold Char.toLower
  have hno : ¬ (c.toNat ≥ 65 ∧ c.toNat ≤ 90) := by omega
  simp [hno]

/-- A whitespace-only string cannot contain a needle that starts
with the letter `e`, even after lower-casing. -/
lemma not_containsL_e_of_allSpace {l : List Char} (r : List Char)
    (h : ∀ c ∈ l, isSpaceChar c = true) :
    containsL (l.map Char.toLower) ('e' :: r) = false := by
  induction l with
  | nil => rfl
  | cons c t ih =>
    have hc := h c (by simp)
    have hne : ¬ (('e' : Char) = Char.toLower c) := by
      rw [toLower_of_space hc]
      intro he
      rw [← he] at hc
      exact absurd hc (by decide)
    simp [containsL, beginsWith, hne, ih (fun x hx => h x (by simp [hx]))]

/-- Python `'email' in e.lower()` fails on a string that strips to
empty. -/
lemma pyIn_email_of_strip_nil {e : String} (h : pyStrip e = "") :
    pyIn "email" (pyLower e) = false := by
  have hd : stripL e.data = [] := congrArg String.data h
  have : "email".data = 'e' :: ['m', 'a', 'i', 'l'] := rfl
  unfold pyIn pyLower
  rw [this]
  exact not_containsL_e_of_allSpace _ (allSpace_of_stripL_nil hd)

/-- A prefix occurrence is an occurrence. -/
lemma containsL_of_beginsWith {n hay : List Char} (h : beginsWith n hay = true) :
    containsL hay n = true := by
  cases hay with
  | nil =>
    cases n with
    | nil => rfl
    | cons a as => simp [beginsWith] at h
  | cons c t => simp [containsL, h]

/-- If `l1 ++ l2` is a prefix of `hay` then `l2` occurs in `hay`. -/
lemma containsL_of_beginsWith_append {l1 l2 hay : List Char}
    (h : beginsWith (l1 ++ l2) hay = true) : containsL hay l2 = true := by
  induction l1 generalizing hay with
  | nil => exact containsL_of_beginsWith h
  | cons a as ih =>
    cases hay with
    | nil => simp [beginsWith] at h
    | cons b bs =>
      simp only [List.cons_append, beginsWith, Bool.and_eq_true] at h
      have h2 := ih h.2
      simp [containsL, h2]

/-- An occurrence of `l1 ++ l2` yields an occurrence of `l2`. -/
lemma containsL_append_right {hay l1 l2 : List Char}
    (h : containsL hay (l1 ++ l2) = true) : containsL hay l2 = true := by
  induction hay with
  | nil =>
    simp [containsL, List.isEmpty_iff] at h ⊢
    exact h.2
  | cons c t ih =>
    simp only [containsL, Bool.or_eq_true] at h
    rcases h with h | h
    · exact containsL_of_beginsWith_append h
    · have := ih h
      simp [containsL, this]

/-- Containment of `'in person' in m` implies `'person' in m`. -/
lemma pyIn_person_of_inperson {m : String} (h : pyIn "in person" m = true) :
    pyIn "person" m = true := by
  have he : "in person".data = "in ".data ++ "person".data := rfl
  unfold pyIn at h ⊢
  rw [he] at h
  exact containsL_append_right h

/-- Function `get_contact_mode` without an e-mail hint agrees with the
specification's keyword mapping (the code's redundant `in person`
disjunct is absorbed by its `person` disjunct). -/
lemma get_contact_mode_none (t : String) : get_contact_mode t none = modeSpec t := by
  unfold get_contact_mode modeSpec
  by_cases h0 : pyStrip t = ""
  · simp [h0]
  · simp only [if_neg h0]
    by_cases hip : pyIn "in person" (pyLower (pyStrip t)) = true
    · have hp := pyIn_person_of_inperson hip
      simp [hip, hp]
    · simp [hip]

/-- For the first slot the code passes the `Email` column both as the
contact-type text and as the hint; the result agrees with the
specification's first-slot mapping. -/
lemma get_contact_mode_first (e : String) :
    get_contact_mode e (some e) = modeSpecFirst e := by
  unfold modeSpecFirst
  by_cases h0 : pyStrip e = ""
  · have hf : pyIn "email" (pyLower e) = false := pyIn_email_of_strip_nil h0
    have he : pyIn "email" (pyLower "") = false := by decide
    unfold get_contact_mode modeSpec
    simp [h0, hf, he]
  · by_cases h1 : pyIn "email" (pyLower (pyStrip e)) = true
    · unfold get_contact_mode
      simp [h0, h1]
    · rw [if_neg (by simpa using h1), ← get_contact_mode_none]
      unfold get_contact_mode
      rw [if_neg h0, if_neg h0]

/-- C5: for each of the three historical slots an attempt record is
emitted iff the slot's date field or its paired comment field is
non-empty (after trimming), and the emitted attempt's mode follows
the specification's keyword mapping on the slot's contact-type text:
`modeSpec` for the second and third slots, and for the first slot
`modeSpecFirst` on the `Email` column (the only contact-type text the
legacy schema offers for that slot, doubling as the side field from
which E-Mail is inferred). -/
theorem c5_reconciler (row : Row) :
    ((slotAttempt1 row).isSome ↔
        (pyStrip (getRow row "1st Attempt to reach Patient/Referring MD") ≠ ""
          ∨ pyStrip (getRow row "Comments") ≠ ""))
  ∧ (∀ a, slotAttempt1 row = some a →
        a.mode = modeSpecFirst (getRow row "Email")
        ∧ a.comment = pyStrip (getRow row "Comments"))
  ∧ ((slotAttempt2 row).isSome ↔
        (pyStrip (getRow row "2nd Attempt to reach Patient/Referring MD") ≠ ""
          ∨ pyStrip (getRow row "Comments2") ≠ ""))
  ∧ (∀ a, slotAttempt2 row = some a →
        a.mode = modeSpec (getRow row "Type of Contact")
        ∧ a.comment = pyStrip (getRow row "Comments2"))
  ∧ ((slotAttempt3 row).isSome ↔
        (pyStrip (getRow row "3rd Attempt to reach Patient/Referring MD") ≠ ""
          ∨ pyStrip (getRow row "Comments4") ≠ ""))
  ∧ (∀ a, slotAttempt3 row = some a →
        a.mode = modeSpec (getRow row "Type of Contact3")
        ∧ a.comment = pyStrip (getRow row "Comments4")) := by
  refine ⟨?_, ?_, ?_, ?_, ?_, ?_⟩
  · unfold slotAttempt1
    dsimp only
    split_ifs with h <;> simp [h]
  · unfold slotAttempt1
    dsimp only
    intro a ha
    split_ifs at ha
    · rw [← Option.some.inj ha]
      exact ⟨get_contact_mode_first _, rfl⟩
    · rw [← Option.some.inj ha]
      exact ⟨get_contact_mode_first _, rfl⟩
  · unfold slotAttempt2
    dsimp only
    split_ifs with h <;> simp [h]
  · unfold slotAttempt2
    dsimp only
    intro a ha
    split_ifs at ha
    · rw [← Option.some.inj ha]
      exact ⟨get_contact_mode_none _, rfl⟩
    · rw [← Option.some.inj ha]
      exact ⟨get_contact_mode_none _, rfl⟩
  · unfold slotAttempt3
    dsimp only
    split_ifs with h <;> simp [h]
  · unfold slotAttempt3
    dsimp only
    intro a ha
    split_ifs at ha
    · rw [← Option.some.inj ha]
      exact ⟨get_contact_mode_none _, rfl⟩
    · rw [← Option.some.inj ha]
      exact ⟨get_contact_mode_none _, rfl⟩

/-- A concrete row exercising all three slots of the reconciler. -/
def w5row : Row :=
  [("Comments", "c1"), ("Comments2", "c2"), ("Comments4", "c3"),
   ("Email", "sent email"), ("Type of Contact", "phone call"),
   ("Type of Contact3", "Fax")]

/-- C5 witness: the three mode implications discharged on `w5row`
(slot 1 infers E-Mail from the side text, slot 2 maps "phone call" to
Phone, slot 3 maps "Fax" to Fax). -/
theorem c5_reconciler_witness :
    (Attempt.mode ⟨none, "", "E-Mail", "c1"⟩ = modeSpecFirst (getRow w5row "Email")
      ∧ Attempt.comment ⟨none, "", "E-Mail", "c1"⟩ = pyStrip (getRow w5row "Comments"))
  ∧ (Attempt.mode ⟨none, "", "Phone", "c2"⟩ = modeSpec (getRow w5row "Type of Contact")
      ∧ Attempt.comment ⟨none, "", "Phone", "c2"⟩ = pyStrip (getRow w5row "Comments2"))
  ∧ (Attempt.mode ⟨none, "", "Fax", "c3"⟩ = modeSpec (getRow w5row "Type of Contact3")
      ∧ Attempt.comment ⟨none, "", "Fax", "c3"⟩ = pyStrip (getRow w5row "Comments4")) :=
  ⟨(c5_reconciler w5row).2.1 ⟨none, "", "E-Mail", "c1"⟩ (by decide),
   (c5_reconciler w5row).2.2.2.1 ⟨none, "", "Phone", "c2"⟩ (by decide),
   (c5_reconciler w5row).2.2.2.2.2 ⟨none, "", "Fax", "c3"⟩ (by decide)⟩

/-- The status classifier only ever produces one of its five labels. -/
lemma referralStatusOf_mem (row : Row) :
    referralStatusOf row ∈ (["New", "Pending", "Info Received", "Completed", "Deferred"] : List String) := by
  unfold referralStatusOf
  dsimp only
  split_ifs <;> simp

/-- The type classifier only ever produces one of its three labels. -/
lemma referralTypeOf_mem (row : Row) :
    referralTypeOf row ∈ (["New", "Previous", "Partner"] : List String) := by
  unfold referralTypeOf
  dsimp only
  split_ifs <;> simp

/-- C6 counterexample: a `Pending` row with a complete-information
date imports with status `Info Received`, which is not a member of
the claim's closed set (the claim lists `Information Completed`
instead). -/
theorem c6_status_set_counterexample :
    (convertRow [("LAST NAME", "Smith"), ("Referral Complete", "Pending"),
        ("Date Complete Information received", "17-Sep-24")]).map Referral.referralStatus
      = some "Info Received"
  ∧ ¬ (("Info Received" : String) ∈
        (["New", "Pending", "Information Completed", "Completed", "Deferred"] : List String)) := by
  decide

/-- C6 (amended): every referral produced by the import has a status
in the closed set {New, Pending, Info Received, Completed, Deferred}
(the code's label for the complete-information case is
`Info Received`), a type in {New, Previous, Partner}, and
phoneAttempts / emailAttempts equal to the count of its reconciled
attempts whose mode is in {Phone, Phone call} and {E-Mail, Email}
respectively. -/
theorem c6_closed_sets_amended (row : Row) (r : Referral)
    (h : convertRow row = some r) :
    r.referralStatus ∈ (["New", "Pending", "Info Received", "Completed", "Deferred"] : List String)
  ∧ r.referralType ∈ (["New", "Previous", "Partner"] : List String)
  ∧ r.phoneAttempts
      = (r.attempts.filter (fun a => a.mode = "Phone" ∨ a.mode = "Phone call")).length
  ∧ r.emailAttempts
      = (r.attempts.filter (fun a => a.mode = "E-Mail" ∨ a.mode = "Email")).length := by
  unfold convertRow at h
  split_ifs at h
  rw [← Option.some.inj h]
  exact ⟨referralStatusOf_mem row, referralTypeOf_mem row, rfl, rfl⟩

/-- C6 witness: the amended claim instantiated on a one-field row
(`LAST NAME` only), whose import is the all-default referral. -/
theorem c6_closed_sets_witness :
    (Referral.referralStatus ⟨"New", "New", "", "Smith", 0, 0, none, none, none, []⟩
        ∈ (["New", "Pending", "Info Received", "Completed", "Deferred"] : List String))
  ∧ (Referral.referralType ⟨"New", "New", "", "Smith", 0, 0, none, none, none, []⟩
        ∈ (["New", "Previous", "Partner"] : List String))
  ∧ Referral.phoneAttempts ⟨"New", "New", "", "Smith", 0, 0, none, none, none, []⟩
      = ((Referral.attempts ⟨"New", "New", "", "Smith", 0, 0, none, none, none, []⟩).filter
          (fun a => a.mode = "Phone" ∨ a.mode = "Phone call")).length
  ∧ Referral.emailAttempts ⟨"New", "New", "", "Smith", 0, 0, none, none, none, []⟩
      = ((Referral.attempts ⟨"New", "New", "", "Smith", 0, 0, none, none, none, []⟩).filter
          (fun a => a.mode = "E-Mail" ∨ a.mode = "Email")).length :=
  c6_closed_sets_amended [("LAST NAME", "Smith")]
    ⟨"New", "New", "", "Smith", 0, 0, none, none, none, []⟩ (by decide)

/-- A row is dropped by `convertRow` exactly when its `LAST NAME`
strips to empty. -/
lemma convertRow_eq_none_iff (r : Row) :
    convertRow r = none ↔ pyStrip (getRow r "LAST NAME") = "" := by
  unfold convertRow
  split_ifs with h <;> simp [h]

/-- The stream loop inserts exactly the convertible rows (in order)
and announces one skip notice per dropped row. -/
lemma convertAllAux_spec (rows : List Row) : ∀ n : Nat,
    (convertAllAux n rows).1 = rows.filterMap convertRow
    ∧ (convertAllAux n rows).2.length
        = (rows.filter (fun r => pyStrip (getRow r "LAST NAME") = "")).length := by
  induction rows with
  | nil => intro n; constructor <;> rfl
  | cons r rest ih =>
    intro n
    unfold convertAllAux
    cases hc : convertRow r with
    | some ref =>
      have hnot : ¬ pyStrip (getRow r "LAST NAME") = "" := by
        intro hx
        rw [← convertRow_eq_none_iff r] at hx
        rw [hc] at hx
        cases hx
      simp [hc, List.filterMap_cons, List.filter_cons, hnot, (ih (n + 1)).1, (ih (n + 1)).2]
    | none =>
      have hyes : pyStrip (getRow r "LAST NAME") = "" := (convertRow_eq_none_iff r).mp hc
      simp [hc, List.filterMap_cons, List.filter_cons, hyes, (ih (n + 1)).1, (ih (n + 1)).2]

/-- Inserted plus skipped accounts for every row read. -/
lemma filterMap_convertRow_length (rows : List Row) :
    (rows.filterMap convertRow).length
      + (rows.filter (fun r => pyStrip (getRow r "LAST NAME") = "")).length
      = rows.length := by
  induction rows with
  | nil => rfl
  | cons r rest ih =>
    cases hc : convertRow r with
    | some ref =>
      have hnot : ¬ pyStrip (getRow r "LAST NAME") = "" := by
        intro hx
        rw [← convertRow_eq_none_iff r] at hx
        rw [hc] at hx
        cases hx
      simp only [List.filterMap_cons, hc, List.filter_cons]
      simp [hnot]
      omega
    | none =>
      have hyes : pyStrip (getRow r "LAST NAME") = "" := (convertRow_eq_none_iff r).mp hc
      simp only [List.filterMap_cons, hc, List.filter_cons]
      simp [hyes]
      omega

/-- C7: importing N rows of which K lack a non-empty `LAST NAME`
inserts exactly N-K referrals; the orchestrator reports one skip
notice per skipped row (K in total), N rows read, N-K rows imported,
and the status and type breakdowns of the inserted referrals. -/
theorem c7_orchestrator (rows : List Row) :
    (convertAll rows).referrals.length
        = rows.length - (rows.filter (fun r => pyStrip (getRow r "LAST NAME") = "")).length
  ∧ (convertAll rows).skippedNotices.length
        = (rows.filter (fun r => pyStrip (getRow r "LAST NAME") = "")).length
  ∧ (convertAll rows).rowsRead = rows.length
  ∧ (convertAll rows).importedCount = (convertAll rows).referrals.length
  ∧ (∀ s, statusBreakdownCount rows s
        = ((rows.filterMap convertRow).filter (fun x => x.referralStatus = s)).length)
  ∧ (∀ t, typeBreakdownCount rows t
        = ((rows.filterMap convertRow).filter (fun x => x.referralType = t)).length) := by
  have hs := convertAllAux_spec rows 1
  have hl := filterMap_convertRow_length rows
  refine ⟨?_, hs.2, rfl, rfl, ?_, ?_⟩
  · show (convertAllAux 1 rows).1.length = _
    rw [hs.1]
    omega
  · intro s
    unfold statusBreakdownCount convertAll
    dsimp only
    rw [hs.1]
  · intro t
    unfold typeBreakdownCount convertAll
    dsimp only
    rw [hs.1]

set_option maxHeartbeats 1000000 in
/-- Day count added when stepping one year: 366 for leap years. -/
lemma daysBeforeYear_succ (y : Nat) (hy : 1 ≤ y) :
    daysBeforeYear (y + 1) = daysBeforeYear y + (if isLeap y then 366 else 365) := by
  obtain ⟨n, rfl⟩ : ∃ n, y = n + 1 := ⟨y - 1, by omega⟩
  unfold daysBeforeYear isLeap
  simp only [Nat.add_sub_cancel, decide_eq_true_eq]
  rw [Nat.succ_div n 4, Nat.succ_div n 100, Nat.succ_div n 400]
  by_cases d400 : 400 ∣ n + 1
  · have d100 : 100 ∣ n + 1 := by omega
    have d4 : 4 ∣ n + 1 := by omega
    have hl : (n + 1) % 4 = 0 ∧ (n + 1) % 100 ≠ 0 ∨ (n + 1) % 400 = 0 := by omega
    rw [if_pos d4, if_pos d100, if_pos d400, if_pos hl]
    omega
  · by_cases d100 : 100 ∣ n + 1
    · have d4 : 4 ∣ n + 1 := by omega
      have hnl : ¬ ((n + 1) % 4 = 0 ∧ (n + 1) % 100 ≠ 0 ∨ (n + 1) % 400 = 0) := by omega
      rw [if_pos d4, if_pos d100, if_neg d400, if_neg hnl]
      simp only [Nat.add_zero]
      omega
    · by_cases d4 : 4 ∣ n + 1
      · have hl : (n + 1) % 4 = 0 ∧ (n + 1) % 100 ≠ 0 ∨ (n + 1) % 400 = 0 := by omega
        rw [if_pos d4, if_neg d100, if_neg d400, if_pos hl]
        simp only [Nat.add_zero]
        omega
      · have hnl : ¬ ((n + 1) % 4 = 0 ∧ (n + 1) % 100 ≠ 0 ∨ (n + 1) % 400 = 0) := by omega
        rw [if_neg d4, if_neg d100, if_neg d400, if_neg hnl]
        simp only [Nat.add_zero]
        omega

/-- Function `daysBeforeYear` is monotone in the year. -/
lemma daysBeforeYear_mono : Monotone daysBeforeYear := by
  apply monotone_nat_of_le_succ
  intro y
  rcases Nat.eq_zero_or_pos y with h | h
  · subst h
    decide
  · rw [daysBeforeYear_succ y h]
    split_ifs <;> omega

/-- Within a year, month prefix plus day never exceeds the year
length. -/
lemma daysBeforeMonth_add_day_le (y m d : Nat) (hm1 : 1 ≤ m) (hm2 : m ≤ 12)
    (hd : d ≤ daysInMonth y m) :
    daysBeforeMonth (isLeap y) m + d ≤ (if isLeap y then 366 else 365) := by
  unfold daysInMonth at hd
  interval_cases m <;> cases hL : isLeap y <;>
    simp [daysBeforeMonth, hL] at hd ⊢ <;> omega

/-- Any valid date before 1970 has an ordinal strictly below the
epoch's (719163 = ordinal of 1970-01-01). -/
lemma toOrdinal_lt_epoch (y m d : Nat) (hv : validDate y m d) (hy : y < 1970) :
    toOrdinal y m d < 719163 := by
  obtain ⟨hy1, _, hm1, hm2, hd1, hd2⟩ := hv
  have h1 : daysBeforeMonth (isLeap y) m + d ≤ (if isLeap y then 366 else 365) :=
    daysBeforeMonth_add_day_le y m d hm1 hm2 hd2
  have h2 : daysBeforeYear y + (if isLeap y then 366 else 365) = daysBeforeYear (y + 1) :=
    (daysBeforeYear_succ y hy1).symm
  have h3 : daysBeforeYear (y + 1) ≤ daysBeforeYear 1970 :=
    daysBeforeYear_mono (by omega)
  have h4 : daysBeforeYear 1970 = 719162 := by decide
  unfold toOrdinal
  split_ifs at h1 h2 <;> omega

/-- The delta-from-epoch conversion is negative on every valid date
before 1970 (no platform-dependent failure is modelled: the function
is total). -/
lemma epochSecondsOf_neg (y m d : Nat) (hv : validDate y m d) (hy : y < 1970) :
    epochSecondsOf y m d < 0 := by
  have h := toOrdinal_lt_epoch y m d hv hy
  unfold epochSecondsOf
  have h2 : (toOrdinal y m d : Int) - 719163 < 0 := by omega
  exact mul_neg_of_neg_of_pos h2 (by norm_num)

/-- C8: the date parser first attempts `"%d-%b-%y"`; on failure it
falls back to `"%Y-%m-%d"`; if both fail it returns the absent value
(the embedding is a total function, so no exception can escape); and
dates before 1970 still yield a (negative) signed epoch-seconds
timestamp via the explicit delta from the epoch. -/
theorem c8_parse_contract :
    (∀ s y m d, parseDMY (pyStrip s) = some (y, m, d) →
        parse_date_to_timestamp s = some (epochSecondsOf y m d))
  ∧ (∀ s y m d, parseDMY (pyStrip s) = none → parseISO (pyStrip s) = some (y, m, d) →
        parse_date_to_timestamp s = some (epochSecondsOf y m d))
  ∧ (∀ s, parseDMY (pyStrip s) = none → parseISO (pyStrip s) = none →
        parse_date_to_timestamp s = none)
  ∧ (∀ y m d, validDate y m d → y < 1970 → epochSecondsOf y m d < 0) := by
  refine ⟨?_, ?_, ?_, epochSecondsOf_neg⟩
  · intro s y m d h
    unfold parse_date_to_timestamp
    by_cases h0 : pyStrip s = ""
    · rw [h0] at h
      have he : parseDMY "" = none := by decide
      rw [he] at h
      cases h
    · rw [if_neg h0, h]
  · intro s y m d h1 h2
    unfold parse_date_to_timestamp
    by_cases h0 : pyStrip s = ""
    · rw [h0] at h2
      have he : parseISO "" = none := by decide
      rw [he] at h2
      cases h2
    · rw [if_neg h0, h1, h2]
  · intro s h1 h2
    unfold parse_date_to_timestamp
    by_cases h0 : pyStrip s = ""
    · rw [if_pos h0]
    · rw [if_neg h0, h1, h2]

/-- C8 witness: both formats, a failing input, and a pre-1970 date. -/
theorem c8_parse_contract_witness :
    parse_date_to_timestamp "13-Oct-83" = some (epochSecondsOf 1983 10 13)
  ∧ parse_date_to_timestamp "2024-09-17" = some (epochSecondsOf 2024 9 17)
  ∧ parse_date_to_timestamp "not a date" = none
  ∧ epochSecondsOf 1955 10 13 < 0 :=
  ⟨c8_parse_contract.1 "13-Oct-83" 1983 10 13 (by decide),
   c8_parse_contract.2.1 "2024-09-17" 2024 9 17 (by decide) (by decide),
   c8_parse_contract.2.2.1 "not a date" (by decide) (by decide),
   c8_parse_contract.2.2.2 1955 10 13 (by decide) (by decide)⟩

/-- Writing a key and reading it back yields the written value. -/
lemma getRow_setRow (r : Row) (k v : String) : getRow (setRow r k v) k = v := by
  unfold setRow getRow
  split_ifs with h
  · have hpred : (fun p : String × String => decide ((if p.1 = k then (k, v) else p).1 = k))
        = fun p : String × String => decide (p.1 = k) := by
      funext p
      by_cases hp : p.1 = k <;> simp [hp]
    rw [List.find?_map]
    show (match (r.find? ((fun p : String × String => decide (p.1 = k)) ∘
        fun p => if p.1 = k then (k, v) else p)).map (fun p => if p.1 = k then (k, v) else p) with
      | some p => p.2 | none => "") = v
    rw [show ((fun p : String × String => decide (p.1 = k)) ∘
        fun p => if p.1 = k then (k, v) else p) = fun p : String × String => decide (p.1 = k)
      from hpred]
    obtain ⟨p0, hp0⟩ := Option.isSome_iff_exists.mp h
    rw [hp0]
    have hk : p0.1 = k := by simpa using List.find?_some hp0
    simp [hk]
  · rw [List.find?_append]
    have hn : r.find? (fun p : String × String => decide (p.1 = k)) = none := by
      cases hf : r.find? (fun p : String × String => decide (p.1 = k)) with
      | none => rfl
      | some p => rw [hf] at h; simp at h
    rw [hn]
    simp

/-- Writing one key leaves every other key unchanged. -/
lemma getRow_setRow_ne (r : Row) (k v k2 : String) (h : k2 ≠ k) :
    getRow (setRow r k v) k2 = getRow r k2 := by
  unfold setRow getRow
  split_ifs with hf
  · rw [List.find?_map]
    have hpred : ((fun p : String × String => decide (p.1 = k2)) ∘
        fun p => if p.1 = k then (k, v) else p)
        = fun p : String × String => decide (p.1 = k2) := by
      funext p
      by_cases hp : p.1 = k
      · simp [hp, fun hh : k = k2 => h hh.symm]
      · simp [hp]
    rw [hpred]
    cases hp0 : r.find? (fun p : String × String => decide (p.1 = k2)) with
    | none => rfl
    | some p0 =>
      have hk2 : p0.1 = k2 := by simpa using List.find?_some hp0
      have hpk : ¬ p0.1 = k := by rw [hk2]; exact h
      simp [hpk]
  · rw [List.find?_append]
    have hkk : ¬ k = k2 := fun hh => h hh.symm
    have hone : List.find? (fun p : String × String => decide (p.1 = k2)) [(k, v)] = none := by
      simp [hkk]
    rw [hone]
    cases r.find? (fun p : String × String => decide (p.1 = k2)) <;> rfl

/-- A date-source candidate is usable when it is non-blank and passes
`parse_date` (spec: "validates"). -/
def dateOk (r : Row) (f : String) : Prop :=
  pyStrip (getRow r f) ≠ "" ∧ pre_parse_ok (pyStrip (getRow r f)) = true

instance (r : Row) (f : String) : Decidable (dateOk r f) := by
  unfold dateOk; infer_instance

/-- Date field name of slot `j`. -/
def slotDateField (j : Nat) : String :=
  ((slotFields.get? j).map (fun sf => sf.1)).getD ""

/-- Closed form of `inferDate` for the first slot: no prior slots. -/
lemma inferDate_zero (r : Row) :
    inferDate r 0 =
      (if dateOk r "Date Complete Information received" then
        some (pyStrip (getRow r "Date Complete Information received"),
          "Date Complete Information received")
      else if dateOk r "Date Referral Received" then
        some (pyStrip (getRow r "Date Referral Received"), "Date Referral Received")
      else none) := by
  unfold inferDate dateOk
  rfl

/-- Closed form of `inferDate` for the second slot: one prior slot. -/
lemma inferDate_one (r : Row) :
    inferDate r 1 =
      (if dateOk r "Date Complete Information received" then
        some (pyStrip (getRow r "Date Complete Information received"),
          "Date Complete Information received")
      else if dateOk r "1st Attempt to reach Patient/Referring MD" then
        some (pyStrip (getRow r "1st Attempt to reach Patient/Referring MD"),
          "1st Attempt to reach Patient/Referring MD")
      else if dateOk r "Date Referral Received" then
        some (pyStrip (getRow r "Date Referral Received"), "Date Referral Received")
      else none) := by
  unfold inferDate dateOk
  dsimp only [slotFields, List.take, List.filterMap]
  split_ifs <;> simp_all

/-- Closed form of `inferDate` for the third slot: the prior slots are
scanned in order from the first. -/
lemma inferDate_two (r : Row) :
    inferDate r 2 =
      (if dateOk r "Date Complete Information received" then
        some (pyStrip (getRow r "Date Complete Information received"),
          "Date Complete Information received")
      else if dateOk r "1st Attempt to reach Patient/Referring MD" then
        some (pyStrip (getRow r "1st Attempt to reach Patient/Referring MD"),
          "1st Attempt to reach Patient/Referring MD")
      else if dateOk r "2nd Attempt to reach Patient/Referring MD" then
        some (pyStrip (getRow r "2nd Attempt to reach Patient/Referring MD"),
          "2nd Attempt to reach Patient/Referring MD")
      else if dateOk r "Date Referral Received" then
        some (pyStrip (getRow r "Date Referral Received"), "Date Referral Received")
      else none) := by
  unfold inferDate dateOk
  dsimp only [slotFields, List.take, List.filterMap]
  split_ifs <;> simp_all

/-- Value of `slotDateField` at index 0. -/
lemma slotDateField_zero : slotDateField 0 = "1st Attempt to reach Patient/Referring MD" := rfl

/-- Value of `slotDateField` at index 1. -/
lemma slotDateField_one : slotDateField 1 = "2nd Attempt to reach Patient/Referring MD" := rfl

/-- Value of `slotDateField` at index 2. -/
lemma slotDateField_two : slotDateField 2 = "3rd Attempt to reach Patient/Referring MD" := rfl

/-- Behaviour of one backfill step when the slot has a comment but no
date: a successful inference writes the date and appends exactly one
audit record; a failed inference leaves the date field unchanged and
the audit list untouched. -/
lemma processSlot_backfill (idx : Nat) (st : PreState) (i : Nat) (df mf cf : String)
    (hslot : slotFields.get? i = some (df, mf, cf))
    (row1 : Row)
    (hrow1 : row1 = if pyStrip (getRow st.row mf) ≠ "" then st.row else setRow st.row mf "Other")
    (hc : pyStrip (getRow st.row cf) ≠ "")
    (hd : pyStrip (getRow st.row df) = "")
    (hdm : df ≠ mf) :
    (∀ d src, inferDate row1 i = some (d, src) →
        getRow (processSlot idx st i).row df = d
        ∧ (processSlot idx st i).flags = st.flags ++
            [⟨idx,
              pyStrip (getRow (setRow row1 df d) "FIRST NAME" ++ " "
                ++ getRow (setRow row1 df d) "LAST NAME"),
              df, d, src, strTake 50 (getRow (setRow row1 df d) cf)⟩]
        ∧ (processSlot idx st i).inferredCount = st.inferredCount + 1)
  ∧ (inferDate row1 i = none →
        getRow (processSlot idx st i).row df = getRow st.row df
        ∧ (processSlot idx st i).flags = st.flags
        ∧ (processSlot idx st i).inferredCount = st.inferredCount) := by
  unfold processSlot
  rw [hslot]
  dsimp only
  have hndate : ¬ pyStrip (getRow st.row df) ≠ "" := fun hx => hx hd
  rw [if_pos ⟨hc, Or.inl hndate⟩, if_neg hndate, ← hrow1]
  constructor
  · intro d src hsome
    rw [hsome]
    dsimp only
    exact ⟨getRow_setRow row1 df d, rfl, rfl⟩
  · intro hnone
    rw [hnone]
    dsimp only
    refine ⟨?_, rfl, rfl⟩
    rw [hrow1]
    split_ifs with hm
    · rfl
    · exact getRow_setRow_ne st.row mf "Other" df hdm

/-- C3 (amended): when a slot has a comment but no date, the inferred
date is chosen by trying, in order, (a) the complete-information
date, (b) the EARLIEST prior slot whose date validates (the prior
slots are scanned in slot order starting from the first — not the
nearest earlier slot), (c) the referral received date, taking the
first candidate that validates; on success the date field is set and
one audit record is appended; if none validate the date is left
absent and the row is NOT flagged (flags are recorded only for
successful inferences). -/
theorem c3_backfill_amended (idx : Nat) (st : PreState) (i : Nat) (df mf cf : String)
    (hslot : slotFields.get? i = some (df, mf, cf))
    (row1 : Row)
    (hrow1 : row1 = if pyStrip (getRow st.row mf) ≠ "" then st.row else setRow st.row mf "Other")
    (hc : pyStrip (getRow st.row cf) ≠ "")
    (hd : pyStrip (getRow st.row df) = "") :
    (dateOk row1 "Date Complete Information received" →
        inferDate row1 i
          = some (pyStrip (getRow row1 "Date Complete Information received"),
              "Date Complete Information received"))
  ∧ (¬ dateOk row1 "Date Complete Information received" →
        ∀ j, j < i → dateOk row1 (slotDateField j) →
        (∀ k, k < j → ¬ dateOk row1 (slotDateField k)) →
        inferDate row1 i = some (pyStrip (getRow row1 (slotDateField j)), slotDateField j))
  ∧ (¬ dateOk row1 "Date Complete Information received" →
        (∀ j, j < i → ¬ dateOk row1 (slotDateField j)) →
        dateOk row1 "Date Referral Received" →
        inferDate row1 i
          = some (pyStrip (getRow row1 "Date Referral Received"), "Date Referral Received"))
  ∧ (¬ dateOk row1 "Date Complete Information received" →
        (∀ j, j < i → ¬ dateOk row1 (slotDateField j)) →
        ¬ dateOk row1 "Date Referral Received" →
        inferDate row1 i = none)
  ∧ (∀ d src, inferDate row1 i = some (d, src) →
        getRow (processSlot idx st i).row df = d
        ∧ (processSlot idx st i).flags = st.flags ++
            [⟨idx,
              pyStrip (getRow (setRow row1 df d) "FIRST NAME" ++ " "
                ++ getRow (setRow row1 df d) "LAST NAME"),
              df, d, src, strTake 50 (getRow (setRow row1 df d) cf)⟩])
  ∧ (inferDate row1 i = none →
        getRow (processSlot idx st i).row df = getRow st.row df
        ∧ (processSlot idx st i).flags = st.flags) := by
  rcases i with _ | _ | _ | n
  case succ.succ.succ =>
    exact absurd hslot (by simp [slotFields])
  case zero =>
    simp only [slotFields, List.get?] at hslot
    obtain ⟨rfl, rfl, rfl⟩ := by simpa using hslot
    have hb := processSlot_backfill idx st 0 _ _ _ (by rfl) row1 hrow1 hc hd (by decide)
    refine ⟨?_, ?_, ?_, ?_, ?_, ?_⟩
    · intro h
      rw [inferDate_zero, if_pos h]
    · intro hn j hj hv hmin
      exact absurd hj (by omega)
    · intro hn hprior hr
      rw [inferDate_zero, if_neg hn, if_pos hr]
    · intro hn hprior hr
      rw [inferDate_zero, if_neg hn, if_neg hr]
    · intro d src hs
      exact ⟨(hb.1 d src hs).1, (hb.1 d src hs).2.1⟩
    · intro hs
      exact ⟨(hb.2 hs).1, (hb.2 hs).2.1⟩
  case succ.zero =>
    simp only [slotFields, List.get?] at hslot
    obtain ⟨rfl, rfl, rfl⟩ := by simpa using hslot
    have hb := processSlot_backfill idx st 1 _ _ _ (by rfl) row1 hrow1 hc hd (by decide)
    refine ⟨?_, ?_, ?_, ?_, ?_, ?_⟩
    · intro h
      rw [inferDate_one, if_pos h]
    · intro hn j hj hv hmin
      interval_cases j
      rw [slotDateField_zero] at hv ⊢
      rw [inferDate_one, if_neg hn, if_pos hv]
    · intro hn hprior hr
      have hp0 := hprior 0 (by omega)
      rw [slotDateField_zero] at hp0
      rw [inferDate_one, if_neg hn, if_neg hp0, if_pos hr]
    · intro hn hprior hr
      have hp0 := hprior 0 (by omega)
      rw [slotDateField_zero] at hp0
      rw [inferDate_one, if_neg hn, if_neg hp0, if_neg hr]
    · intro d src hs
      exact ⟨(hb.1 d src hs).1, (hb.1 d src hs).2.1⟩
    · intro hs
      exact ⟨(hb.2 hs).1, (hb.2 hs).2.1⟩
  case succ.succ.zero =>
    simp only [slotFields, List.get?] at hslot
    obtain ⟨rfl, rfl, rfl⟩ := by simpa using hslot
    have hb := processSlot_backfill idx st 2 _ _ _ (by rfl) row1 hrow1 hc hd (by decide)
    refine ⟨?_, ?_, ?_, ?_, ?_, ?_⟩
    · intro h
      rw [inferDate_two, if_pos h]
    · intro hn j hj hv hmin
      interval_cases j
      · rw [slotDateField_zero] at hv ⊢
        rw [inferDate_two, if_neg hn, if_pos hv]
      · have hm0 := hmin 0 (by omega)
        rw [slotDateField_zero] at hm0
        rw [slotDateField_one] at hv ⊢
        rw [inferDate_two, if_neg hn, if_neg hm0, if_pos hv]
    · intro hn hprior hr
      have hp0 := hprior 0 (by omega)
      have hp1 := hprior 1 (by omega)
      rw [slotDateField_zero] at hp0
      rw [slotDateField_one] at hp1
      rw [inferDate_two, if_neg hn, if_neg hp0, if_neg hp1, if_pos hr]
    · intro hn hprior hr
      have hp0 := hprior 0 (by omega)
      have hp1 := hprior 1 (by omega)
      rw [slotDateField_zero] at hp0
      rw [slotDateField_one] at hp1
      rw [inferDate_two, if_neg hn, if_neg hp0, if_neg hp1, if_neg hr]
    · intro d src hs
      exact ⟨(hb.1 d src hs).1, (hb.1 d src hs).2.1⟩
    · intro hs
      exact ⟨(hb.2 hs).1, (hb.2 hs).2.1⟩

/-- Counterexample row for C3's first defect: the third slot has a
comment but no date, both earlier slots have valid dates, and there
is no complete-information date. -/
def c3rowA : Row :=
  [("LAST NAME", "Smith"), ("FIRST NAME", "Jo"),
   ("1st Attempt to reach Patient/Referring MD", "17-Sep-24"),
   ("2nd Attempt to reach Patient/Referring MD", "18-Sep-24"),
   ("Comments4", "phoned again"), ("Type of Contact3", "Phone")]

/-- Counterexample row for C3's second defect: a comment with no date
and no validating source anywhere. -/
def c3rowB : Row :=
  [("LAST NAME", "Kim"), ("Comments", "left note"), ("Email", "Phone call")]

/-- C3 counterexample: (1) on `c3rowA` the code backfills the third
slot from the FIRST slot's date 17-Sep-24 although the nearest
earlier slot (the second) holds the valid date 18-Sep-24 — refuting
"the nearest earlier attempt slot's date"; (2) on `c3rowB` no source
validates, the date stays absent, and the audit list stays empty —
refuting "the row is flagged for manual review" on failure. -/
theorem c3_backfill_counterexample :
    (getRow (processAttempts 2 c3rowA).row "3rd Attempt to reach Patient/Referring MD"
        = "17-Sep-24"
      ∧ pyStrip (getRow c3rowA "2nd Attempt to reach Patient/Referring MD") = "18-Sep-24"
      ∧ pre_parse_ok "18-Sep-24" = true
      ∧ ("17-Sep-24" : String) ≠ "18-Sep-24")
  ∧ ((processAttempts 2 c3rowB).flags = []
      ∧ pyStrip (getRow (processAttempts 2 c3rowB).row
          "1st Attempt to reach Patient/Referring MD") = ""
      ∧ pyStrip (getRow c3rowB "Comments") ≠ "") := by
  decide

/-- Concrete witness row for C3: second slot has a comment and no
date, the complete-information date 20-Sep-24 validates. -/
def w3row : Row :=
  [("FIRST NAME", "Jo"), ("LAST NAME", "Doe"), ("Comments2", "call later"),
   ("Type of Contact", "Phone"), ("Date Complete Information received", "20-Sep-24")]

/-- C3 witness: the amended claim's source (a) discharged on `w3row`. -/
theorem c3_backfill_witness :
    inferDate w3row 1
      = some (pyStrip (getRow w3row "Date Complete Information received"),
          "Date Complete Information received") :=
  (c3_backfill_amended 7 ⟨w3row, [], 0, 0⟩ 1 "2nd Attempt to reach Patient/Referring MD"
      "Type of Contact" "Comments2" (by decide) w3row (by decide) (by decide) (by decide)).1
    (by decide)

/-- C4 (amended): a slot whose date is backfilled is recorded in the
audit list with the source row number, patient name, backfilled
field, value used, provenance field and truncated comment; a slot
whose missing contact mode is defaulted to `Other` is only tallied in
the `set_other_mode` counter and adds NO audit record. -/
theorem c4_audit_amended (idx : Nat) (st : PreState) (i : Nat) (df mf cf : String)
    (hslot : slotFields.get? i = some (df, mf, cf))
    (row1 : Row)
    (hrow1 : row1 = if pyStrip (getRow st.row mf) ≠ "" then st.row else setRow st.row mf "Other")
    (hc : pyStrip (getRow st.row cf) ≠ "")
    (hdm : df ≠ mf) :
    (∀ d src, pyStrip (getRow st.row df) = "" → inferDate row1 i = some (d, src) →
        (processSlot idx st i).flags = st.flags ++
          [⟨idx,
            pyStrip (getRow (setRow row1 df d) "FIRST NAME" ++ " "
              ++ getRow (setRow row1 df d) "LAST NAME"),
            df, d, src, strTake 50 (getRow (setRow row1 df d) cf)⟩]
        ∧ (processSlot idx st i).inferredCount = st.inferredCount + 1)
  ∧ (pyStrip (getRow st.row df) ≠ "" → pyStrip (getRow st.row mf) = "" →
        (processSlot idx st i).flags = st.flags
        ∧ (processSlot idx st i).otherCount = st.otherCount + 1
        ∧ getRow (processSlot idx st i).row mf = "Other") := by
  constructor
  · intro d src hd hsome
    have hb := processSlot_backfill idx st i df mf cf hslot row1 hrow1 hc hd hdm
    exact ⟨(hb.1 d src hsome).2.1, (hb.1 d src hsome).2.2⟩
  · intro hd hm
    unfold processSlot
    rw [hslot]
    dsimp only
    have hnm : ¬ pyStrip (getRow st.row mf) ≠ "" := fun hx => hx hm
    rw [if_pos ⟨hc, Or.inr hnm⟩]
    simp only [if_neg hnm]
    rw [if_pos hd]
    exact ⟨rfl, rfl, getRow_setRow st.row mf "Other"⟩

/-- Counterexample row for C4: the first slot has a comment and a
date but no contact mode. -/
def c4row : Row :=
  [("LAST NAME", "Smith"), ("FIRST NAME", "Ann"), ("Comments", "went by"),
   ("1st Attempt to reach Patient/Referring MD", "17-Sep-24")]

/-- C4 counterexample: on `c4row` the missing mode is defaulted to
`Other` and counted, but the audit list stays empty — refuting "every
row whose missing contact mode was defaulted to Other is recorded in
the audit list". -/
theorem c4_audit_counterexample :
    (processAttempts 2 c4row).otherCount = 1
  ∧ (processAttempts 2 c4row).flags = []
  ∧ getRow (processAttempts 2 c4row).row "Email" = "Other" := by
  decide

/-- Concrete witness row for C4: second slot comment with no date,
mode present, complete-information date valid, so a backfill happens
and is audited. -/
theorem c4_audit_witness :
    (processSlot 7 ⟨w3row, [], 0, 0⟩ 1).flags =
      [] ++ [⟨7,
        pyStrip (getRow (setRow w3row "2nd Attempt to reach Patient/Referring MD" "20-Sep-24")
            "FIRST NAME" ++ " "
          ++ getRow (setRow w3row "2nd Attempt to reach Patient/Referring MD" "20-Sep-24")
            "LAST NAME"),
        "2nd Attempt to reach Patient/Referring MD", "20-Sep-24",
        "Date Complete Information received",
        strTake 50 (getRow (setRow w3row "2nd Attempt to reach Patient/Referring MD" "20-Sep-24")
          "Comments2")⟩]
    ∧ (processSlot 7 ⟨w3row, [], 0, 0⟩ 1).inferredCount = 0 + 1 :=
  (c4_audit_amended 7 ⟨w3row, [], 0, 0⟩ 1 "2nd Attempt to reach Patient/Referring MD"
      "Type of Contact" "Comments2" (by decide) w3row (by decide) (by decide) (by decide)).1
    "20-Sep-24" "Date Complete Information received" (by decide) (by decide)

end MSF
